import Mathlib

/-!
# Verification of the Bali Digital Notary core (craterdog-bali/js-bali-digital-notary)

This file is a shallow embedding in Lean 4 of the reference software security
module (SSM) and the DigitalNotary dispatch layer found in `src/v1/SSM.js`
(the SSM, lines 1-713, and the DigitalNotary wrapper that follows it).

Modelling conventions:

* The external `bali-component-framework` guarantees a deterministic,
  injective canonical serialization of structured values.  Consequently a
  "canonical string" is modelled by the structured value itself: two values
  have equal serializations iff they are equal, so signing / digesting /
  encrypting the serialization is modelled as signing / digesting /
  encrypting the value.
* Cryptography (Node's `crypto` module) is modelled symbolically
  (Dolev-Yao style): a P-256 key pair is identified by its private scalar
  (a `Nat`); the public key is the wrapper `Pub.mk k`; an ECDSA signature
  is a record of the signing scalar and the signed value; an ECDH shared
  secret is a 32-byte string that is a symmetric function of the two
  scalars; AES-256-GCM ciphertexts and auth tags record the key, IV and
  plaintext and can only be opened with the matching key, IV and tag.
* Randomness (`crypto.createECDH().generateKeys()`, `crypto.randomBytes`,
  `bali.tag()`, `bali.moment()`) is passed in explicitly as entropy
  parameters.
* `bali.version()` is the initial version `v1` and
  `bali.version.nextVersion` increments it; version values are modelled by
  positive naturals in the version ordering (`v1` = 1, `v2` = 2, ...).
* File-system effects (`fs.promises`) are modelled as an explicit list of
  operations (`FsOp`) applied to an association-list file system.
-/

namespace BaliNotary

/-- A P-256 public key, identified symbolically by its private scalar. -/
structure Pub where
  priv : Nat
deriving DecidableEq, Repr

/-!  The structured artifacts of the notary protocol.  A `Document` is the
signed envelope `($component, $protocol, $timestamp, $certificate,
$signature)`; `UnsignedDoc` is the catalog extraction of the first four
attributes (everything but the signature), which is exactly what is signed;
a `Citation` carries a digest of a full notarized document, hence the
mutual recursion. -/

mutual

inductive Component where
  /-- A notary certificate component: attributes `$protocol`, `$timestamp`,
  `$accountId`, `$publicKey`, with parameters `$tag`, `$version`,
  `$permissions`, `$previous` (the `$type` parameter is the constant
  `/bali/notary/Certificate/v1`). -/
  | certificate (protocol : String) (timestamp : Nat) (accountId : Nat)
      (publicKey : Pub) (tag : Nat) (version : Nat) (permissions : String)
      (previous : OptCitation)
  /-- Any other structured component, identified by its (injectively
  encoded) canonical serialization. -/
  | data (payload : Nat)

inductive OptCitation where
  | none
  | some (c : Citation)

inductive Citation where
  | mk (protocol : String) (timestamp : Nat) (tag : Nat) (version : Nat)
      (digest : Digest)

inductive Digest where
  /-- `digestMessage(document.toString())`: SHA-512 of the canonical bytes,
  modelled as an injective function of the serialized document. -/
  | ofDocument (d : Document)

inductive Document where
  | mk (component : Component) (protocol : String) (timestamp : Nat)
      (certificate : OptCitation) (signature : Signature)

inductive Signature where
  /-- `signMessage(message, privateKey)`: an ECDSA signature, modelled as a
  record of the signing scalar and the signed (serialized) value. -/
  | mk (signer : Nat) (signed : UnsignedDoc)

inductive UnsignedDoc where
  | mk (component : Component) (protocol : String) (timestamp : Nat)
      (certificate : OptCitation)

end

deriving instance DecidableEq for Component, OptCitation, Citation, Digest,
  Document, Signature, UnsignedDoc

deriving instance Repr for Component, OptCitation, Citation, Digest,
  Document, Signature, UnsignedDoc

/-! ## Accessors (the framework's typed `getValue`/`getParameter`) -/

/-- `document.getValue(spec)` for the key of the payload component. -/
def Document.componentOf : Document → Component
  | .mk c _ _ _ _ => c

/-- `document.getValue(spec)` for the protocol version key. -/
def Document.protocolOf : Document → String
  | .mk _ p _ _ _ => p

/-- `document.getValue(spec)` for the certificate-citation key. -/
def Document.certificateOf : Document → OptCitation
  | .mk _ _ _ cert _ => cert

/-- `document.getValue(spec)` for the signature key. -/
def Document.signatureOf : Document → Signature
  | .mk _ _ _ _ s => s

/-- The private scalar that produced a signature. -/
def Signature.signerOf : Signature → Nat
  | .mk k _ => k

/-- The serialized value a signature covers. -/
def Signature.signedOf : Signature → UnsignedDoc
  | .mk _ u => u

/-- `citation.getValue` of the `$tag` attribute. -/
def Citation.tagOf : Citation → Nat
  | .mk _ _ t _ _ => t

/-- `citation.getValue` of the `$version` attribute. -/
def Citation.versionOf : Citation → Nat
  | .mk _ _ _ v _ => v

/-- `component.getValue` of `$publicKey`: present only on certificate
components (`undefined` otherwise, modelled as `none`). -/
def Component.publicKeyOf : Component → Option Pub
  | .certificate _ _ _ pk _ _ _ _ => Option.some pk
  | .data _ => Option.none

/-- Whether the component has the shape `validateParameter` accepts for the
`certificate` type (four attributes and the five certificate parameters). -/
def Component.isCertificateShape : Component → Bool
  | .certificate _ _ _ _ _ _ _ _ => true
  | .data _ => false

/-- The `$tag` parameter of a certificate component (0 on non-certificates). -/
def Component.tagOf : Component → Nat
  | .certificate _ _ _ _ t _ _ _ => t
  | .data _ => 0

/-- The `$version` parameter of a certificate component (0 on
non-certificates). -/
def Component.versionOf : Component → Nat
  | .certificate _ _ _ _ _ v _ _ => v
  | .data _ => 0

/-- The `$previous` parameter of a certificate component. -/
def Component.previousOf : Component → OptCitation
  | .certificate _ _ _ _ _ _ _ p => p
  | .data _ => OptCitation.none

/--
`bali.catalog.extraction(document, ['$component', '$protocol', '$timestamp',
'$certificate'])` - everything but the signature, in canonical attribute
order, keeping the document's parameters.
-/
def extraction : Document → UnsignedDoc
  | .mk c p t cert _ => UnsignedDoc.mk c p t cert

/-- A JS `undefined` citation slot serializes like `none` in a catalog entry. -/
def citOrNone : Option Citation → OptCitation
  | Option.some c => OptCitation.some c
  | Option.none => OptCitation.none

/-! ## The algorithm constants of `src/v1/SSM.js` -/

def PROTOCOL : String := "v1"

def permissionsPublicV1 : String := "/bali/permissions/public/v1"

/-! ## Symbolic cryptography (Node `crypto` on curve prime256v1) -/

/-- `signMessage(message, privateKey)`: ECDSA over SHA-512 with the private
scalar; symbolically, the pair of the signer and the signed value. -/
def signMessage (message : UnsignedDoc) (privateKey : Nat) : Signature :=
  Signature.mk privateKey message

/-- `signatureIsValid(message, publicKey, signature)`: the signature is valid
iff it was produced by the scalar matching `publicKey` over exactly this
message. -/
def signatureIsValid (message : UnsignedDoc) (publicKey : Pub)
    (signature : Signature) : Bool :=
  decide (signature.signerOf = publicKey.priv ∧ signature.signedOf = message)

/-- `digestMessage(message)`: SHA-512 of the canonical document bytes,
injective on documents. -/
def digestMessage (d : Document) : Digest :=
  Digest.ofDocument d

/-- The x-coordinate of the ECDH point shared by the key pairs of two private
scalars: a 32-byte string, symmetric in the two scalars. -/
def ecPoint (a b : Nat) : List Nat :=
  min a b :: max a b :: List.replicate 30 0

/-- `curve.computeSecret(otherPublicKey)` for a curve holding `privateKey`. -/
def computeSecret (privateKey : Nat) (publicKey : Pub) : List Nat :=
  ecPoint privateKey publicKey.priv

/-- `crypto.randomBytes(n)`: an n-byte random string drawn from a seed. -/
def randomBytes (n : Nat) (seed : Nat) : List Nat :=
  List.replicate n (seed % 256)

/-- An AES-256-GCM ciphertext: symbolically, the key, IV and plaintext that
produced it (the plaintext is a serialized component). -/
structure CipherText where
  key : List Nat
  iv : List Nat
  message : Component
deriving DecidableEq, Repr

/-- An AES-256-GCM authentication tag over the same data. -/
structure AuthTag where
  key : List Nat
  iv : List Nat
  message : Component
deriving DecidableEq, Repr

/-- `crypto.createCipheriv(CIPHER, key, iv)` followed by `update`/`final`/
`getAuthTag`: produces the ciphertext and the GCM tag. -/
def aesGcmEncrypt (key : List Nat) (iv : List Nat) (message : Component) :
    CipherText × AuthTag :=
  (CipherText.mk key iv message, AuthTag.mk key iv message)

/-- `crypto.createDecipheriv(CIPHER, key, iv)` with `setAuthTag` followed by
`update`/`final`: recovers the plaintext, or fails (the thrown
unable-to-authenticate error) when the key, IV or tag do not match. -/
def aesGcmDecrypt (key : List Nat) (iv : List Nat) (auth : AuthTag)
    (ct : CipherText) : Option Component :=
  if ct.key = key ∧ ct.iv = iv ∧ auth = AuthTag.mk key iv ct.message then
    Option.some ct.message
  else
    Option.none

/-- An authenticated encrypted message (AEM): attributes `$protocol`,
`$timestamp`, `$seed`, `$iv`, `$auth`, `$ciphertext`, parameterized with type
`/bali/notary/AEM/v1`. -/
structure AEM where
  protocol : String
  timestamp : Nat
  seed : Pub
  iv : List Nat
  auth : AuthTag
  ciphertext : CipherText
deriving DecidableEq, Repr

/--
`encryptMessage(message, publicKey)` of `src/v1/SSM.js`:

* generate an ephemeral ECDH key pair (entropy `eph`); its public key is the
  decryption seed;
* `symmetricKey = curve.computeSecret(publicKey).slice(0, 32)` - only the
  first 32 bytes of the shared secret;
* `iv = crypto.randomBytes(12)` (entropy `ivSeed`);
* AES-256-GCM encrypt, collecting the auth tag;
* assemble the AEM catalog (`bali.moment()` is the entropy `now`).
-/
def encryptMessage (message : Component) (publicKey : Pub)
    (eph : Nat) (ivSeed : Nat) (now : Nat) : AEM :=
  let seed : Pub := Pub.mk eph
  let symmetricKey := (computeSecret eph publicKey).take 32
  let iv := randomBytes 12 ivSeed
  let enc := aesGcmEncrypt symmetricKey iv message
  AEM.mk PROTOCOL now seed iv enc.2 enc.1

/--
`decryptMessage(aem, privateKey)` of `src/v1/SSM.js`: recompute
`symmetricKey = curve.computeSecret(seed).slice(0, 32)` from the private
scalar and the AEM's seed, then AES-256-GCM decrypt; `none` models the
authentication failure thrown by `decipher.final`.
-/
def decryptMessage (aem : AEM) (privateKey : Nat) : Option Component :=
  let symmetricKey := (computeSecret privateKey aem.seed).take 32
  aesGcmDecrypt symmetricKey aem.iv aem.auth aem.ciphertext

/-! ## Error kinds -/

/-- The error kinds surfaced by the notary modules.  The first group are the
bali exceptions thrown with an `$exception` symbol; `typeError` and
`authenticationFailed` model raw JavaScript errors (`TypeError` from
dereferencing `undefined`, and the GCM unable-to-authenticate error);
`unexpected` models the DigitalNotary wrapper's `$unexpected` exception that
wraps any cause whose constructor is not `Exception`. -/
inductive NotaryError where
  | missingKey
  | unsupportedProtocol
  | directoryAccess
  | invalidParameter
  | typeError
  | authenticationFailed
  | unexpected (cause : NotaryError)
deriving DecidableEq, Repr

/-- `true` exactly on successful (non-throwing) results. -/
def isSuccess {α : Type} : Except NotaryError α → Bool
  | Except.ok _ => true
  | Except.error _ => false

instance {ε α : Type} [DecidableEq ε] [DecidableEq α] :
    DecidableEq (Except ε α) := fun a b =>
  match a, b with
  | Except.ok x, Except.ok y =>
      if h : x = y then Decidable.isTrue (by rw [h])
      else Decidable.isFalse (by intro hc; cases hc; exact h rfl)
  | Except.error x, Except.error y =>
      if h : x = y then Decidable.isTrue (by rw [h])
      else Decidable.isFalse (by intro hc; cases hc; exact h rfl)
  | Except.ok _, Except.error _ => Decidable.isFalse (by intro hc; cases hc)
  | Except.error _, Except.ok _ => Decidable.isFalse (by intro hc; cases hc)

/-! ## The file store (`fs.promises`) -/

/-- The parsed contents of a configuration file: either a NotaryKey catalog
or a notarized certificate document. -/
inductive StoredFile where
  | keyFile (protocol : String) (timestamp : Nat) (accountId : Nat)
      (publicKey : Pub) (privateKey : Nat) (certificate : Citation)
  | certFile (d : Document)
deriving DecidableEq, Repr

/-- A file-system operation issued by the SSM.  The constructors cover the
`fs.promises` surface; the source only ever issues `writeFile` (with mode
0o600) and `unlink`. -/
inductive FsOp where
  | writeFile (filename : String) (content : StoredFile) (mode : Nat)
  | unlink (filename : String)
  | rename (fromName : String) (toName : String)
  | fsync (filename : String)
deriving DecidableEq, Repr

/-- The configuration directory's contents: filename-to-content mapping. -/
def FileStore : Type := List (String × StoredFile)

def fsLookup (fs : FileStore) (name : String) : Option StoredFile :=
  match fs with
  | [] => Option.none
  | (n, c) :: rest => if n = name then Option.some c else fsLookup rest name

def fsErase (fs : FileStore) (name : String) : FileStore :=
  match fs with
  | [] => []
  | (n, c) :: rest =>
      if n = name then fsErase rest name else (n, c) :: fsErase rest name

def fsWrite (fs : FileStore) (name : String) (content : StoredFile) :
    FileStore :=
  (name, content) :: fsErase fs name

/-- Apply a trace of operations to the file system. -/
def applyOps (fs : FileStore) (ops : List FsOp) : FileStore :=
  match ops with
  | [] => fs
  | FsOp.writeFile n c _ :: rest => applyOps (fsWrite fs n c) rest
  | FsOp.unlink n :: rest => applyOps (fsErase fs n) rest
  | FsOp.rename _ _ :: rest => applyOps fs rest
  | FsOp.fsync _ :: rest => applyOps fs rest

/-- The two configuration filenames inside the per-account directory. -/
def keyFilename : String := "NotaryKey.bali"

def certificateFilename : String := "NotaryCertificate.bali"

/-- `storeKey(filename, key)`: appends the POSIX EOL (part of the
serialization, abstracted here) and performs a single plain
`fs.writeFile(filename, key, {encoding: 'utf8', mode: 0o600})`. -/
def storeKey (filename : String) (key : StoredFile) : List FsOp :=
  [FsOp.writeFile filename key 0o600]

/-- `storeCertificate(filename, certificate)`: likewise one plain write. -/
def storeCertificate (filename : String) (certificate : StoredFile) :
    List FsOp :=
  [FsOp.writeFile filename certificate 0o600]

/-- `deleteKey(filename)` / `deleteCertificate(filename)`:
`pfs.unlink(filename).catch(...)`. -/
def deleteFile (filename : String) : List FsOp :=
  [FsOp.unlink filename]

/-! ## The private SSM (`exports.privateAPI(accountId, directory)`) -/

/-- The closure state of `privateAPI`: the mutable variables captured by the
returned object, plus the `accountId` parameter and whether the
`initializeAPI` method slot is still present (`this.initializeAPI` is set to
`undefined` after the first successful call). -/
structure SSMState where
  accountId : Nat
  notaryTag : Option Nat
  version : Option Nat
  timestamp : Option Nat
  publicKey : Option Pub
  privateKey : Option Nat
  notaryCertificate : Option Document
  certificateCitation : Option Citation
  hasInitializeAPI : Bool
deriving DecidableEq, Repr

/-- The state of a freshly constructed private SSM: every closure variable
is `undefined` and the `initializeAPI` method is present. -/
def initialState (accountId : Nat) : SSMState :=
  SSMState.mk accountId Option.none Option.none Option.none Option.none
    Option.none Option.none Option.none true

/-- The fresh values drawn during one `generateKey` call: the new ECDH key
pair (identified by its private scalar), the `bali.tag()` fallback, and the
three `bali.moment()` calls (component timestamp, document timestamp,
citation timestamp). -/
structure Entropy where
  keySeed : Nat
  tagSeed : Nat
  momentA : Nat
  momentB : Nat
  momentC : Nat
deriving DecidableEq, Repr

/--
`generateKey()` of `src/v1/SSM.js` (the body after the
`if (this.initializeAPI) await this.initializeAPI();` guard, which is
modelled separately by `ensureInitialized`):

* `isRegeneration := !!privateKey`;
* generate a fresh key pair; keep the old tag if present, else a new tag;
  `version := version ? nextVersion(version) : bali.version()`; remember the
  new public key but keep the OLD private key for signing;
* build the certificate component and its document envelope
  (`$certificate`/`$previous` are the existing citation when regenerating,
  none otherwise), sign the envelope's canonical bytes (before `$signature`
  is attached) and attach the signature;
* only now replace the private key with the new one;
* digest the finalized envelope and cache the new citation;
* store the NotaryKey catalog and the certificate document (plain writes);
  a storage failure throws `$directoryAccess` - note that every in-memory
  variable has already been updated at that point.

`storageOk` models whether the file writes succeed.  The result is the
returned document (or the thrown error), the closure state afterwards, and
the file operations performed.
-/
def generateKey (s : SSMState) (e : Entropy) (storageOk : Bool) :
    Except NotaryError Document × SSMState × List FsOp :=
  let isRegeneration := s.privateKey.isSome
  -- const keys = generateKeys();
  let keysPublic : Pub := Pub.mk e.keySeed
  let keysPrivate : Nat := e.keySeed
  -- notaryTag = notaryTag || bali.tag();
  let tagV : Nat :=
    match s.notaryTag with
    | Option.some t => t
    | Option.none => e.tagSeed
  -- version = version ? bali.version.nextVersion(version) : bali.version();
  let versionV : Nat :=
    match s.version with
    | Option.some v => v + 1
    | Option.none => 1
  -- privateKey = privateKey || keys.privateKey;  (the OLD key if present)
  let signingKey : Nat :=
    match s.privateKey with
    | Option.some k => k
    | Option.none => keysPrivate
  let previousV : OptCitation :=
    if isRegeneration then citOrNone s.certificateCitation
    else OptCitation.none
  let component := Component.certificate PROTOCOL e.momentA s.accountId
    keysPublic tagV versionV permissionsPublicV1 previousV
  let certSlot : OptCitation :=
    if isRegeneration then citOrNone s.certificateCitation
    else OptCitation.none
  let unsigned := UnsignedDoc.mk component PROTOCOL e.momentB certSlot
  let signature := signMessage unsigned signingKey
  let doc := Document.mk component PROTOCOL e.momentB certSlot signature
  -- now we can save the new key: privateKey = keys.privateKey;
  let digest := digestMessage doc
  let citation := Citation.mk PROTOCOL e.momentC tagV versionV digest
  let s' : SSMState :=
    { s with
      notaryTag := Option.some tagV
      version := Option.some versionV
      timestamp := Option.some e.momentA
      publicKey := Option.some keysPublic
      privateKey := Option.some keysPrivate
      notaryCertificate := Option.some doc
      certificateCitation := Option.some citation }
  if storageOk then
    let notaryKeyFile := StoredFile.keyFile PROTOCOL e.momentA s.accountId
      keysPublic keysPrivate citation
    let ops := storeKey keyFilename notaryKeyFile ++
      storeCertificate certificateFilename (StoredFile.certFile doc)
    (Except.ok doc, s', ops)
  else
    (Except.error NotaryError.directoryAccess, s', [])

/-- `forgetKey()` (after the initialization guard): clear `version`,
`publicKey`, `privateKey`, `certificateCitation` and `notaryCertificate`
(note: NOT `notaryTag` and NOT `timestamp`), then unlink both files. -/
def forgetKey (s : SSMState) : SSMState × List FsOp :=
  ({ s with
      version := Option.none
      publicKey := Option.none
      privateKey := Option.none
      certificateCitation := Option.none
      notaryCertificate := Option.none },
    deleteFile keyFilename ++ deleteFile certificateFilename)

/-- `signComponent(component)` (after the initialization guard): throws
`$missingKey` when no private key is held; otherwise envelopes the component
(`$component`, `$protocol`, `$timestamp`, `$certificate`), signs the
envelope's canonical bytes and attaches the signature.  `now` models the
`bali.moment()` call. -/
def signComponent (s : SSMState) (component : Component) (now : Nat) :
    Except NotaryError Document :=
  match s.privateKey with
  | Option.none => Except.error NotaryError.missingKey
  | Option.some privateKey =>
      let unsigned :=
        UnsignedDoc.mk component PROTOCOL now (citOrNone s.certificateCitation)
      let signature := signMessage unsigned privateKey
      Except.ok (Document.mk component PROTOCOL now
        (citOrNone s.certificateCitation) signature)

/-- `decryptComponent(aem)` (after the initialization guard): throws
`$missingKey` without a private key; throws `$unsupportedProtocol` when the
AEM's `$protocol` differs from `PROTOCOL`; otherwise decrypts (a GCM tag
mismatch surfaces as the raw authentication error). -/
def decryptComponent (s : SSMState) (aem : AEM) :
    Except NotaryError Component :=
  match s.privateKey with
  | Option.none => Except.error NotaryError.missingKey
  | Option.some privateKey =>
      if aem.protocol = PROTOCOL then
        match decryptMessage aem privateKey with
        | Option.some message => Except.ok message
        | Option.none => Except.error NotaryError.authenticationFailed
      else
        Except.error NotaryError.unsupportedProtocol

/-! ## `initializeAPI` -/

/--
The body of `initializeAPI()`: read the NotaryKey file if it exists
(restoring `timestamp`, `publicKey`, `privateKey`, `certificateCitation`,
and from the citation `notaryTag` and `version`), read the certificate file
if it exists (restoring `notaryCertificate`), and finally remove the method
slot (`this.initializeAPI = undefined; // can only be called once`).  A
file whose contents do not parse as the expected catalog surfaces as the
`$directoryAccess` exception (in which case the slot is NOT removed).
-/
def initializeBody (s : SSMState) (fs : FileStore) :
    Except NotaryError SSMState :=
  let s1 : Option SSMState :=
    match fsLookup fs keyFilename with
    | Option.some (StoredFile.keyFile _ t _ pk sk cit) =>
        Option.some { s with
          timestamp := Option.some t
          publicKey := Option.some pk
          privateKey := Option.some sk
          certificateCitation := Option.some cit
          notaryTag := Option.some cit.tagOf
          version := Option.some cit.versionOf }
    | Option.some (StoredFile.certFile _) => Option.none
    | Option.none => Option.some s
  match s1 with
  | Option.none => Except.error NotaryError.directoryAccess
  | Option.some s1 =>
      match fsLookup fs certificateFilename with
      | Option.some (StoredFile.certFile d) =>
          Except.ok { s1 with
            notaryCertificate := Option.some d
            hasInitializeAPI := false }
      | Option.some (StoredFile.keyFile _ _ _ _ _ _) =>
          Except.error NotaryError.directoryAccess
      | Option.none => Except.ok { s1 with hasInitializeAPI := false }

/-- A DIRECT call `api.initializeAPI()`: after the first successful call the
slot holds `undefined`, so invoking it again is a raw `TypeError`
("not a function"). -/
def callInitializeAPI (s : SSMState) (fs : FileStore) :
    Except NotaryError SSMState :=
  if s.hasInitializeAPI then initializeBody s fs
  else Except.error NotaryError.typeError

/-- The guard `if (this.initializeAPI) await this.initializeAPI();` that
every other operation of the private API runs first: initializes on the
first use and is a no-op afterwards. -/
def ensureInitialized (s : SSMState) (fs : FileStore) :
    Except NotaryError SSMState :=
  if s.hasInitializeAPI then initializeBody s fs
  else Except.ok s

/-! ## The public SSM API and the DigitalNotary dispatch layer -/

/--
`documentIsValid(document, certificate)` of the public SSM API:
`certificate = certificate.getValue(component)`; extract everything but the
signature from the document; verify the signature against the public key
`certificate.getValue(publicKey)`.  When the certificate's component has no
`$publicKey` attribute, `getValue` yields `undefined` and the later
dereference inside `signatureIsValid` raises a `TypeError`; that path is
modelled by `none`.
-/
def ssmDocumentIsValid (document : Document) (certificate : Document) :
    Option Bool :=
  let cert := certificate.componentOf
  let catalog := extraction document
  match cert.publicKeyOf with
  | Option.none => Option.none
  | Option.some publicKey =>
      Option.some (signatureIsValid catalog publicKey document.signatureOf)

/-- `citeDocument(document)` of the public SSM API: digest the full document
and assemble a citation from the component's `$tag`/`$version` parameters
(`now` models `bali.moment()`). -/
def citeDocument (document : Document) (now : Nat) : Citation :=
  Citation.mk PROTOCOL now document.componentOf.tagOf
    document.componentOf.versionOf (digestMessage document)

/-- The `protocols` registry of the DigitalNotary module: it maps version
strings to algorithm suites, and currently holds only `v1` (newest first;
the preferred protocol is the first key). -/
def protocolsRegistry : List String := [PROTOCOL]

/-- The algorithm suites. -/
inductive AlgSuite where
  | v1
deriving DecidableEq, Repr

/--
`getPublicAPI(functionName, document)` of the DigitalNotary module:
`protocols[protocol.toString()].SSM.publicAPI()`.  When the artifact's
`$protocol` is a registry key the suite is returned (and since
`publicAPI()` always returns an object, the `if (!publicAPI)` guard that
would throw `$unsupportedProtocol` can never fire - it is dead code).  When
the protocol is NOT registered, `protocols[...]` is `undefined` and the
immediate `.SSM` access throws a raw `TypeError` - not the prepared
`$unsupportedProtocol` exception.
-/
def getPublicAPI (artifact : Document) : Except NotaryError AlgSuite :=
  if artifact.protocolOf = PROTOCOL then Except.ok AlgSuite.v1
  else Except.error NotaryError.typeError

/-- The wrapper's `catch`: a bali `Exception` is rethrown as-is, any other
cause (`TypeError`, the GCM authentication error) is wrapped in a fresh
`$unexpected` exception. -/
def wrapCause (e : NotaryError) : NotaryError :=
  match e with
  | NotaryError.typeError => NotaryError.unexpected NotaryError.typeError
  | NotaryError.authenticationFailed =>
      NotaryError.unexpected NotaryError.authenticationFailed
  | e => e

/--
`documentIsValid(document, certificate)` of the DigitalNotary wrapper:
validate the parameters (the document and certificate envelope shapes are
guaranteed by this typed embedding; `certificate.getValue(component)` must
additionally have the certificate shape, else `$invalidParameter` is
thrown), then `getPublicAPI('$documentIsValid', certificate)` - dispatching
on the CERTIFICATE's `$protocol` - and finally the suite's
`documentIsValid`.
-/
def notaryDocumentIsValid (document : Document) (certificate : Document) :
    Except NotaryError Bool :=
  if certificate.componentOf.isCertificateShape then
    match getPublicAPI certificate with
    | Except.error e => Except.error (wrapCause e)
    | Except.ok _ =>
        match ssmDocumentIsValid document certificate with
        | Option.some b => Except.ok b
        | Option.none => Except.error (wrapCause NotaryError.typeError)
  else
    Except.error NotaryError.invalidParameter

/-- Whether an operation is a plain (non-atomic) `writeFile`. -/
def FsOp.isPlainWrite : FsOp → Bool
  | FsOp.writeFile _ _ _ => true
  | FsOp.unlink _ => false
  | FsOp.rename _ _ => false
  | FsOp.fsync _ => false

/-- The certificate documents emitted by a sequence of `generateKey`
(regeneration) calls, one per entropy draw, with all stores succeeding. -/
def rotationCertificates (s : SSMState) (es : List Entropy) : List Document :=
  match es with
  | [] => []
  | e :: rest =>
      match (generateKey s e true).1 with
      | Except.ok d => d :: rotationCertificates ((generateKey s e true).2.1) rest
      | Except.error _ => []

/-- The `$version` parameters of the certificates emitted by a sequence of
`generateKey` calls. -/
def rotationVersions (s : SSMState) (es : List Entropy) : List Nat :=
  (rotationCertificates s es).map (fun d => d.componentOf.versionOf)

/-! ## Concrete fixtures used by witnesses and counterexamples -/

def emptyStore : FileStore := []

def entropyA : Entropy := Entropy.mk 5 7 100 101 102

def entropyB : Entropy := Entropy.mk 11 13 110 111 112

def entropyC : Entropy := Entropy.mk 21 22 120 121 122

/-- A freshly constructed private SSM for account 42. -/
def sFresh : SSMState := initialState 42

/-- The SSM after its first (trivial, empty directory) initialization. -/
def sInit1 : SSMState := { sFresh with hasInitializeAPI := false }

/-- The SSM after the genesis `generateKey` (key scalar 5, tag 7). -/
def sActive : SSMState := (generateKey sInit1 entropyA true).2.1

/-- The SSM after one regeneration (new key scalar 11, same tag 7). -/
def sActive2 : SSMState := (generateKey sActive entropyB true).2.1

/-- A placeholder document (the `getD` default; never actually reached). -/
def noDoc : Document :=
  Document.mk (Component.data 0) PROTOCOL 0 OptCitation.none
    (Signature.mk 0 (UnsignedDoc.mk (Component.data 0) PROTOCOL 0
      OptCitation.none))

/-- The genesis notary certificate document held by `sActive`. -/
def theCert : Document := (sActive.notaryCertificate).getD noDoc

/-- The second notary certificate document held by `sActive2`. -/
def theCert2 : Document := (sActive2.notaryCertificate).getD noDoc

/-- An unregistered protocol version string. -/
def PROTOCOL2 : String := "v2"

/-- A well-shaped notarized document whose own `$protocol` is the
unregistered `v2`, signed by scalar 9. -/
def docV2 : Document :=
  Document.mk (Component.data 3) PROTOCOL2 300 OptCitation.none
    (signMessage (UnsignedDoc.mk (Component.data 3) PROTOCOL2 300
      OptCitation.none) 9)

/-- A certificate component publishing the public key of scalar 9. -/
def certComp9 : Component :=
  Component.certificate PROTOCOL 301 42 (Pub.mk 9) 77 1 permissionsPublicV1
    OptCitation.none

/-- A certificate document (protocol `v1`) wrapping `certComp9`. -/
def certDoc9 : Document :=
  Document.mk certComp9 PROTOCOL 301 OptCitation.none
    (signMessage (UnsignedDoc.mk certComp9 PROTOCOL 301 OptCitation.none) 9)

/-- The same certificate document but carrying the unregistered protocol
`v2` at the envelope level. -/
def certDoc9v2 : Document :=
  Document.mk certComp9 PROTOCOL2 301 OptCitation.none
    (signMessage (UnsignedDoc.mk certComp9 PROTOCOL2 301 OptCitation.none) 9)

/-! ## Helper lemmas -/

theorem computeSecret_comm (a b : Nat) :
    computeSecret a (Pub.mk b) = computeSecret b (Pub.mk a) := by
  simp [computeSecret, ecPoint, Nat.min_comm, Nat.max_comm]

theorem signatureIsValid_of_signMessage (u : UnsignedDoc) (k : Nat) :
    signatureIsValid u (Pub.mk k) (signMessage u k) = true := by
  simp [signatureIsValid, signMessage, Signature.signerOf, Signature.signedOf]

theorem fsLookup_fsErase (fs : FileStore) (n m : String) :
    fsLookup (fsErase fs n) m = if m = n then Option.none else fsLookup fs m := by
  induction fs with
  | nil => simp [fsErase, fsLookup]
  | cons hd tl ih =>
      obtain ⟨hn, hc⟩ := hd
      by_cases h1 : hn = n <;> by_cases h2 : hn = m <;> by_cases h3 : m = n <;>
        simp_all [fsErase, fsLookup]

/-! ## Claim C1 -/

/--
Claim C1: for every component `c` signed while the SSM holds a private key
(matching the current notary certificate's public key), validating the
resulting notarized document against the current notary certificate returns
`true`; equivalently, the signature attached by `signComponent` is exactly a
signature over the canonical bytes of the document with the `$signature`
attribute absent - the extraction of `$component`, `$protocol`,
`$timestamp`, `$certificate` in that order - and verifies over those bytes.
-/
theorem signComponent_roundtrip (s : SSMState) (k : Nat) (cd : Document)
    (hk : s.privateKey = Option.some k)
    (hc : s.notaryCertificate = Option.some cd)
    (hpk : cd.componentOf.publicKeyOf = Option.some (Pub.mk k))
    (c : Component) (now : Nat) :
    ∃ d, signComponent s c now = Except.ok d ∧
      ssmDocumentIsValid d cd = Option.some true ∧
      d.signatureOf = signMessage (extraction d) k ∧
      signatureIsValid (extraction d) (Pub.mk k) d.signatureOf = true := by
  refine ⟨Document.mk c PROTOCOL now (citOrNone s.certificateCitation)
    (signMessage (UnsignedDoc.mk c PROTOCOL now
      (citOrNone s.certificateCitation)) k), ?_, ?_, ?_, ?_⟩
  · simp [signComponent, hk]
  · obtain ⟨cc, cp, ct, ccert, csig⟩ := cd
    simp only [Document.componentOf] at hpk
    simp [ssmDocumentIsValid, Document.componentOf, Document.signatureOf,
      extraction, hpk, signatureIsValid_of_signMessage]
  · rfl
  · exact signatureIsValid_of_signMessage _ k

/-- Witness for C1 at the genesis state `sActive` (key 5). -/
theorem signComponent_roundtrip_witness :
    ∃ d, signComponent sActive (Component.data 9) 200 = Except.ok d ∧
      ssmDocumentIsValid d theCert = Option.some true ∧
      d.signatureOf = signMessage (extraction d) 5 ∧
      signatureIsValid (extraction d) (Pub.mk 5) d.signatureOf = true :=
  signComponent_roundtrip sActive 5 theCert (by decide) (by decide)
    (by decide) (Component.data 9) 200

/-! ## Claim C2 -/

/--
Claim C2: whenever a key already exists (regeneration), `generateKey` signs
the new certificate document with the OLD private key before replacing it
(the signing scalar is the old key when present, the fresh key only at
genesis), so the new certificate document validates against the old
certificate's public key; the genesis certificate is signed with its own new
private key.
-/
theorem generateKey_chains_to_old_key (s : SSMState) (e : Entropy) :
    ∃ d, (generateKey s e true).1 = Except.ok d ∧
      d.signatureOf.signerOf =
        (match s.privateKey with
          | Option.some k => k
          | Option.none => e.keySeed) ∧
      (∀ k cd, s.privateKey = Option.some k →
        s.notaryCertificate = Option.some cd →
        cd.componentOf.publicKeyOf = Option.some (Pub.mk k) →
        ssmDocumentIsValid d cd = Option.some true) ∧
      (s.privateKey = Option.none →
        ssmDocumentIsValid d d = Option.some true) := by
  refine ⟨_, rfl, ?_, ?_, ?_⟩
  · cases s.privateKey <;> rfl
  · intro k cd hk hc hpk
    obtain ⟨cc, cp, ct, ccert, csig⟩ := cd
    simp only [Document.componentOf] at hpk
    simp only [ssmDocumentIsValid, Document.componentOf,
      Document.signatureOf, extraction, hpk, hk]
    simp [signatureIsValid_of_signMessage]
  · intro hk
    simp only [ssmDocumentIsValid, Document.componentOf, Document.signatureOf,
      extraction, hk, Component.publicKeyOf]
    simp [signatureIsValid_of_signMessage]

/-- Witness for C2: the regeneration from `sActive` (old key 5) and the
genesis from `sInit1`. -/
theorem generateKey_chains_to_old_key_witness :
    (∃ d, (generateKey sActive entropyB true).1 = Except.ok d ∧
      d.signatureOf.signerOf = 5 ∧
      ssmDocumentIsValid d theCert = Option.some true) ∧
    (∃ d, (generateKey sInit1 entropyA true).1 = Except.ok d ∧
      d.signatureOf.signerOf = 5 ∧
      ssmDocumentIsValid d d = Option.some true) := by
  constructor
  · obtain ⟨d, h1, h2, h3, _⟩ := generateKey_chains_to_old_key sActive entropyB
    refine ⟨d, h1, ?_, h3 5 theCert (by decide) (by decide) (by decide)⟩
    rw [h2]; decide
  · obtain ⟨d, h1, h2, _, h4⟩ := generateKey_chains_to_old_key sInit1 entropyA
    refine ⟨d, h1, ?_, h4 (by decide)⟩
    rw [h2]; decide

/-! ## Claim C3 -/

/--
Counterexample for claim C3: regenerating from the Active state `sActive`
with failing storage throws `$directoryAccess`, yet the in-memory private
key has already been replaced - the state is NOT unchanged on storage
failure; and the successful persistence path issues only plain `writeFile`
operations, never a temp-sibling write, fsync or rename.
-/
theorem generateKey_not_atomic_counterexample :
    (generateKey sActive entropyB false).1 =
      Except.error NotaryError.directoryAccess ∧
    (generateKey sActive entropyB false).2.1.privateKey ≠
      sActive.privateKey ∧
    ((generateKey sActive entropyB true).2.2).all FsOp.isPlainWrite = true := by
  refine ⟨by decide, by decide, by decide⟩

/--
Claim C3 amended: `generateKey` persists the new key and certificate with
two plain `writeFile` calls (no temp sibling, no fsync, no rename), and it
swaps the in-memory state BEFORE persisting: when storage fails it throws
`$directoryAccess`, but the in-memory state is exactly the same new-key
state as on success (in particular the private key is already the fresh
one).
-/
theorem generateKey_mutates_before_persisting (s : SSMState) (e : Entropy) :
    (generateKey s e false).1 = Except.error NotaryError.directoryAccess ∧
    (generateKey s e false).2.1 = (generateKey s e true).2.1 ∧
    (generateKey s e false).2.1.privateKey = Option.some e.keySeed ∧
    (∀ n c, storeKey n c = [FsOp.writeFile n c 0o600]) ∧
    (∀ n c, storeCertificate n c = [FsOp.writeFile n c 0o600]) := by
  refine ⟨rfl, rfl, rfl, fun n c => rfl, fun n c => rfl⟩

/-! ## Claim C4 -/

/--
Counterexample for claim C4: calling `generateKey` on the Active state
`sActive` (which holds private key 5) does NOT fail with
`AlreadyInitialized` - it succeeds and returns a new certificate document
(there is no `rotateKey` in this module; `generateKey` doubles as the
regeneration operation).
-/
theorem generateKey_on_active_counterexample :
    sActive.privateKey.isSome = true ∧
    isSuccess (generateKey sActive entropyB true).1 = true := by
  refine ⟨by decide, by decide⟩

/--
Claim C4 amended: calling `generateKey` while the SSM already holds a
private key performs a key regeneration instead of failing: it succeeds,
and the returned certificate document is chained to the existing
certificate (its `$previous` parameter and `$certificate` attribute are the
existing certificate citation) and is signed by the old private key.
-/
theorem generateKey_on_active_regenerates (s : SSMState) (e : Entropy)
    (k : Nat) (hk : s.privateKey = Option.some k) :
    ∃ d, (generateKey s e true).1 = Except.ok d ∧
      d.componentOf.previousOf = citOrNone s.certificateCitation ∧
      d.certificateOf = citOrNone s.certificateCitation ∧
      d.signatureOf.signerOf = k := by
  refine ⟨_, rfl, ?_, ?_, ?_⟩ <;>
    simp [hk, Document.componentOf, Document.certificateOf,
      Document.signatureOf, Component.previousOf, signMessage,
      Signature.signerOf, Option.isSome]

/-- Witness for the amended C4 at the Active state `sActive`. -/
theorem generateKey_on_active_regenerates_witness :
    ∃ d, (generateKey sActive entropyB true).1 = Except.ok d ∧
      d.componentOf.previousOf = citOrNone sActive.certificateCitation ∧
      d.certificateOf = citOrNone sActive.certificateCitation ∧
      d.signatureOf.signerOf = 5 :=
  generateKey_on_active_regenerates sActive entropyB 5 (by decide)

/-! ## Claim C5 -/

/--
Counterexample for claim C5: `docV2` is a well-shaped notarized document
whose own `$protocol` is the unregistered `v2`.  Validating it against the
`v1` certificate `certDoc9` succeeds (returning `true`), because the
DigitalNotary wrapper dispatches on the CERTIFICATE's `$protocol`, not the
document's - so no `UnsupportedProtocol` failure occurs although the suite
named by the document is absent.  And when the consulted protocol (the
certificate's, in `certDoc9v2`) is actually unregistered, the failure is a
raw `TypeError` wrapped as `$unexpected` - not the `$unsupportedProtocol`
exception, whose guard in `getPublicAPI` is unreachable.
-/
theorem documentIsValid_dispatch_counterexample :
    protocolsRegistry.contains docV2.protocolOf = false ∧
    notaryDocumentIsValid docV2 certDoc9 = Except.ok true ∧
    notaryDocumentIsValid docV2 certDoc9v2 =
      Except.error (NotaryError.unexpected NotaryError.typeError) := by
  refine ⟨by decide, by decide, by decide⟩

/--
Claim C5 amended: `documentIsValid` selects the algorithm suite named by the
CERTIFICATE's `$protocol` via the registry; it returns `false` (not an
error) on any recoverable signature mismatch; and when the consulted
protocol is not registered it fails with a raw `TypeError` wrapped as an
`$unexpected` exception (the prepared `$unsupportedProtocol` check is dead
code).
-/
theorem documentIsValid_dispatches_on_certificate (document certificate :
    Document) (pk : Pub)
    (hpk : certificate.componentOf.publicKeyOf = Option.some pk) :
    notaryDocumentIsValid document certificate =
      (if certificate.protocolOf = PROTOCOL then
        Except.ok (signatureIsValid (extraction document) pk
          document.signatureOf)
      else
        Except.error (NotaryError.unexpected NotaryError.typeError)) := by
  obtain ⟨cc, cp, ct, ccert, csig⟩ := certificate
  cases cc with
  | certificate p t a pk2 tag v perm prev =>
      simp only [Document.componentOf, Component.publicKeyOf,
        Option.some.injEq] at hpk
      subst hpk
      by_cases hp : cp = PROTOCOL <;>
        simp [notaryDocumentIsValid, getPublicAPI, ssmDocumentIsValid,
          Document.componentOf, Document.protocolOf,
          Component.isCertificateShape, Component.publicKeyOf, wrapCause, hp]
  | data payload =>
      simp [Document.componentOf, Component.publicKeyOf] at hpk

/-- Witness for the amended C5 at `docV2` against the `v1` certificate
`certDoc9`. -/
theorem documentIsValid_dispatches_on_certificate_witness :
    notaryDocumentIsValid docV2 certDoc9 =
      (if certDoc9.protocolOf = PROTOCOL then
        Except.ok (signatureIsValid (extraction docV2) (Pub.mk 9)
          docV2.signatureOf)
      else
        Except.error (NotaryError.unexpected NotaryError.typeError)) :=
  documentIsValid_dispatches_on_certificate docV2 certDoc9 (Pub.mk 9)
    (by decide)

/-! ## Claim C6 -/

theorem rotationVersions_cons (s : SSMState) (e : Entropy)
    (rest : List Entropy) :
    rotationVersions s (e :: rest) =
      (match s.version with
        | Option.some v => v + 1
        | Option.none => 1) ::
      rotationVersions ((generateKey s e true).2.1) rest := rfl

theorem generateKey_version_step (s : SSMState) (e : Entropy) :
    ((generateKey s e true).2.1).version =
      Option.some (match s.version with
        | Option.some v => v + 1
        | Option.none => 1) := rfl

/--
Claim C6: across any sequence of `generateKey` rotations on one SSM
instance, the `$version` values of the successive certificates are strictly
increasing; the first certificate (of a version-less state) gets the initial
version `v1` (encoded as 1) and each rotation gets the next version
(`nextVersion`, the successor).
-/
theorem certificate_versions_strictly_increasing (s : SSMState)
    (es : List Entropy) :
    List.Chain' (fun a b => a < b) (rotationVersions s es) ∧
    (∀ e rest, rotationVersions s (e :: rest) =
      (match s.version with
        | Option.some v => v + 1
        | Option.none => 1) ::
      rotationVersions ((generateKey s e true).2.1) rest) := by
  refine ⟨?_, fun e rest => rotationVersions_cons s e rest⟩
  induction es generalizing s with
  | nil => simp [rotationVersions, rotationCertificates]
  | cons e rest ih =>
      rw [rotationVersions_cons]
      cases rest with
      | nil => simp [rotationVersions, rotationCertificates]
      | cons e2 rest2 =>
          have htail := ih ((generateKey s e true).2.1)
          rw [rotationVersions_cons] at htail ⊢
          rw [generateKey_version_step]
          refine List.chain'_cons.mpr ⟨?_, ?_⟩
          · exact Nat.lt_succ_self _
          · rw [generateKey_version_step] at htail
            exact htail

/-! ## Claim C7 -/

/--
Claim C7: for every message `m`, decrypting the AEM produced by encrypting
`m` under a certificate's public key, using the matching private key,
yields `m` exactly; the encryption side derives the AES-256-GCM symmetric
key as the first 32 bytes of the ECDH shared secret, and the IV is a random
12-byte string.
-/
theorem encrypt_decrypt_roundtrip (message : Component)
    (k eph ivSeed now : Nat) :
    decryptMessage (encryptMessage message (Pub.mk k) eph ivSeed now) k =
      Option.some message ∧
    (encryptMessage message (Pub.mk k) eph ivSeed now).ciphertext.key =
      (computeSecret eph (Pub.mk k)).take 32 ∧
    (encryptMessage message (Pub.mk k) eph ivSeed now).iv.length = 12 := by
  refine ⟨?_, rfl, by simp [encryptMessage, randomBytes]⟩
  simp only [encryptMessage, decryptMessage, aesGcmEncrypt]
  rw [computeSecret_comm]
  simp [aesGcmDecrypt]

/-! ## Claim C8 -/

/--
Claim C8: after `forgetKey` completes, any subsequent `signComponent` fails
with the missing-key error (the spec's `UninitializedKey`), and the
persisted key and certificate files no longer exist; `forgetKey` clears the
in-memory private key, public key, version, certificate and citation.
-/
theorem forgetKey_is_final (s : SSMState) (fs : FileStore) (c : Component)
    (now : Nat) :
    signComponent (forgetKey s).1 c now =
      Except.error NotaryError.missingKey ∧
    fsLookup (applyOps fs (forgetKey s).2) keyFilename = Option.none ∧
    fsLookup (applyOps fs (forgetKey s).2) certificateFilename =
      Option.none ∧
    (forgetKey s).1.privateKey = Option.none ∧
    (forgetKey s).1.publicKey = Option.none ∧
    (forgetKey s).1.version = Option.none ∧
    (forgetKey s).1.notaryCertificate = Option.none ∧
    (forgetKey s).1.certificateCitation = Option.none := by
  have hops : (forgetKey s).2 =
      [FsOp.unlink keyFilename, FsOp.unlink certificateFilename] := rfl
  refine ⟨rfl, ?_, ?_, rfl, rfl, rfl, rfl, rfl⟩
  · rw [hops]
    show fsLookup (fsErase (fsErase fs keyFilename) certificateFilename)
      keyFilename = Option.none
    rw [fsLookup_fsErase, fsLookup_fsErase]
    simp [keyFilename, certificateFilename]
  · rw [hops]
    show fsLookup (fsErase (fsErase fs keyFilename) certificateFilename)
      certificateFilename = Option.none
    rw [fsLookup_fsErase]
    simp

/-! ## Claim C9 -/

theorem initializeBody_clears_slot (s s2 : SSMState) (fs : FileStore)
    (h : initializeBody s fs = Except.ok s2) : s2.hasInitializeAPI = false := by
  unfold initializeBody at h
  repeat' split at h
  all_goals simp_all
  all_goals (rw [← h])

/--
Counterexample for claim C9: on a fresh SSM with an empty configuration
directory, the first `initializeAPI()` call succeeds (clearing the method
slot), but a SECOND direct call does not succeed - the slot now holds
`undefined` ("can only be called once"), so invoking it raises a raw
`TypeError` instead of returning without error.
-/
theorem initializeAPI_twice_counterexample :
    callInitializeAPI sFresh emptyStore = Except.ok sInit1 ∧
    callInitializeAPI sInit1 emptyStore =
      Except.error NotaryError.typeError := by
  refine ⟨by decide, by decide⟩

/--
Claim C9 amended: initialization happens at most once.  After a first
successful `initializeAPI` call the method slot is cleared, so the guarded
re-initialization performed by every other operation is a no-op that leaves
the loaded key, certificate and citation state identical to the state after
the first call - but a DIRECT second call to `initializeAPI` fails with a
raw `TypeError` (the slot has been set to `undefined`) rather than
succeeding.
-/
theorem initializeAPI_at_most_once (s s2 : SSMState) (fs fs2 : FileStore)
    (h : callInitializeAPI s fs = Except.ok s2) :
    s2.hasInitializeAPI = false ∧
    ensureInitialized s2 fs2 = Except.ok s2 ∧
    callInitializeAPI s2 fs2 = Except.error NotaryError.typeError := by
  have hbody : initializeBody s fs = Except.ok s2 := by
    unfold callInitializeAPI at h
    split at h
    · exact h
    · cases h
  have hslot := initializeBody_clears_slot s s2 fs hbody
  refine ⟨hslot, ?_, ?_⟩
  · unfold ensureInitialized
    rw [hslot]
    simp
  · unfold callInitializeAPI
    rw [hslot]
    simp

/-- Witness for the amended C9 on the fresh SSM and empty directory. -/
theorem initializeAPI_at_most_once_witness :
    sInit1.hasInitializeAPI = false ∧
    ensureInitialized sInit1 emptyStore = Except.ok sInit1 ∧
    callInitializeAPI sInit1 emptyStore =
      Except.error NotaryError.typeError :=
  initializeAPI_at_most_once sFresh sInit1 emptyStore emptyStore (by decide)

/-! ## Claim C10 -/

/--
Claim C10: `forgetKey` clears the version, keys, certificate and citation
but leaves the notary tag set, so a `generateKey` performed after
`forgetKey` on the same SSM instance issues a certificate that reuses the
previous key's `$tag` while restarting at the initial `$version` (1, i.e.
`v1`) with `$previous` set to none - it neither starts a fresh tag nor
chains to the forgotten certificate (its `$certificate` attribute is also
none).
-/
theorem forgetKey_preserves_tag (s : SSMState) (e : Entropy) (t : Nat)
    (ht : s.notaryTag = Option.some t) :
    (forgetKey s).1.notaryTag = Option.some t ∧
    (forgetKey s).1.version = Option.none ∧
    ∃ d, (generateKey (forgetKey s).1 e true).1 = Except.ok d ∧
      d.componentOf.tagOf = t ∧
      d.componentOf.versionOf = 1 ∧
      d.componentOf.previousOf = OptCitation.none ∧
      d.certificateOf = OptCitation.none := by
  refine ⟨ht, rfl, _, rfl, ?_, rfl, rfl, rfl⟩
  simp [forgetKey, Document.componentOf, Component.tagOf, ht]

/-- Witness for C10 from the rotated Active state `sActive2` (tag 7). -/
theorem forgetKey_preserves_tag_witness :
    (forgetKey sActive2).1.notaryTag = Option.some 7 ∧
    (forgetKey sActive2).1.version = Option.none ∧
    ∃ d, (generateKey (forgetKey sActive2).1 entropyC true).1 =
        Except.ok d ∧
      d.componentOf.tagOf = 7 ∧
      d.componentOf.versionOf = 1 ∧
      d.componentOf.previousOf = OptCitation.none ∧
      d.certificateOf = OptCitation.none :=
  forgetKey_preserves_tag sActive2 entropyC 7 (by decide)

end BaliNotary
